import Mathlib

/-!
Shallow embedding of `compare_video_result/src/compare_video_result/concat_videos.py`.

The media backend (moviepy) is modelled as an environment mapping paths to the
properties of the clip that opening the path would yield; handle bookkeeping is
made explicit by recording the paths opened and closed by each function, in
order.  Frame rates and durations are embedded as exact rationals, frame sizes
as pairs of naturals.
-/

namespace ConcatVideos

/-- Properties moviepy exposes on an opened `VideoFileClip`: `size` (width,
height), `fps` and `duration`.  Pixel dimensions are integers; they are
embedded as rationals so that layout arithmetic stays in one exact field. -/
structure VideoProps where
  width : Rat
  height : Rat
  fps : Rat
  duration : Rat
  deriving DecidableEq, Repr, Inhabited

/-- One element of the validated `videos` list: `{path, description}`. -/
structure VideoEntry where
  path : String
  description : String
  deriving DecidableEq, Repr, Inhabited

/-- The file system and decoder: `fileExists` models `Path.exists`, `openFile`
models `VideoFileClip(path)` (`none` = the constructor raises). -/
structure MediaEnv where
  fileExists : String → Bool
  openFile : String → Option VideoProps

/-- Which of the three property checks in `verify_videos` fired. -/
inductive MismatchKind where
  | size
  | fps
  | duration
  deriving DecidableEq, Repr

/-- The exceptions `verify_videos` can raise. -/
inductive VerifyError where
  | noVideos
  | fileNotFound (path : String)
  | openFailure (path : String)
  | propertyMismatch (kind : MismatchKind) (path : String) (basePath : String)
  deriving DecidableEq, Repr

/-- Outcome of one call to `verify_videos`, together with the media handles it
opened and the ones it closed, in order. -/
structure VerifyRun where
  result : Except VerifyError Unit
  openedHandles : List String
  closedHandles : List String
  deriving Repr

/-- Python's built-in `abs` on an exact rational. -/
def ratAbs (q : Rat) : Rat :=
  if q < 0 then -q else q

/-- The body of the comparison in `verify_videos` (lines 146-162): size is
compared exactly; fps is compared only if unequal, with absolute tolerance
`0.001`; duration with absolute tolerance `0.1`. -/
def checkEntry (base p : VideoProps) : Option MismatchKind :=
  if (p.width, p.height) ≠ (base.width, base.height) then some MismatchKind.size
  else if p.fps ≠ base.fps ∧ ratAbs (p.fps - base.fps) > 1 / 1000 then some MismatchKind.fps
  else if ratAbs (p.duration - base.duration) > 1 / 10 then some MismatchKind.duration
  else none

/-- Spec-side reading of a property mismatch: frame size differs (exact
equality), or fps differs by more than `0.001`, or duration differs by more
than `0.1` seconds (absolute tolerances). -/
def propsMismatch (base p : VideoProps) : Prop :=
  (p.width, p.height) ≠ (base.width, base.height) ∨
    |p.fps - base.fps| > 1 / 1000 ∨ |p.duration - base.duration| > 1 / 10

instance (base p : VideoProps) : Decidable (propsMismatch base p) := by
  unfold propsMismatch
  infer_instance

/-- The loop of `verify_videos` over `video_configs[1:]`.  `tracked` is the
`clips` list (handles that the `except`/`finally` blocks will close), `opened`
records every handle opened so far; both are kept most-recent-first and
reversed on exit.  A clip is appended to `clips` only after all three checks
pass, exactly as in the source. -/
def verifyAux (env : MediaEnv) (base : VideoProps) (basePath : String) :
    List String → List String → List VideoEntry → VerifyRun
  | tracked, opened, [] => ⟨Except.ok (), opened.reverse, tracked.reverse⟩
  | tracked, opened, e :: rest =>
    if env.fileExists e.path then
      match env.openFile e.path with
      | none => ⟨Except.error (VerifyError.openFailure e.path), opened.reverse, tracked.reverse⟩
      | some p =>
        match checkEntry base p with
        | some k =>
          ⟨Except.error (VerifyError.propertyMismatch k e.path basePath),
            (e.path :: opened).reverse, tracked.reverse⟩
        | none => verifyAux env base basePath (e.path :: tracked) (e.path :: opened) rest
    else ⟨Except.error (VerifyError.fileNotFound e.path), opened.reverse, tracked.reverse⟩

/-- `verify_videos` (lines 103-177): empty input raises before anything is
opened; the first entry is opened to establish the baseline and appended to
`clips`; then the loop compares each remaining entry.  Every clip in `clips`
is closed on both the success and the failure path (`except` + `finally`). -/
def verifyVideos (env : MediaEnv) (videoConfigs : List VideoEntry) : VerifyRun :=
  match videoConfigs with
  | [] => ⟨Except.error VerifyError.noVideos, [], []⟩
  | e0 :: rest =>
    if env.fileExists e0.path then
      match env.openFile e0.path with
      | none => ⟨Except.error (VerifyError.openFailure e0.path), [], []⟩
      | some base => verifyAux env base e0.path [e0.path] [e0.path] rest
    else ⟨Except.error (VerifyError.fileNotFound e0.path), [], []⟩

/-- A moviepy color value: a named color string or an RGB triple. -/
inductive ClipColor where
  | named (s : String)
  | rgb (r g b : Nat)
  deriving DecidableEq, Repr

/-- The four layout parameters `process_and_composite_videos` reads from the
validated configuration (lines 194-197). -/
structure LayoutConfig where
  text_area_height : Rat
  text_area_color : ClipColor
  font_size : Rat
  font_color : ClipColor
  deriving DecidableEq, Repr

/-- The clip-building algebra of moviepy as used by the compositor:
`VideoFileClip`, `ColorClip`, `TextClip` (with its position set to center and
its duration set), `CompositeVideoClip([bg, fg])`, `clips_array([[a],[b]])`
(vertical) and `clips_array([row])` (horizontal). -/
inductive Clip where
  | video (path : String) (props : VideoProps)
  | color (size : Rat × Rat) (rgb : Nat × Nat × Nat) (duration : Rat)
  | text (content : String) (fontSize : Rat) (fontColor : ClipColor)
      (maxWidth : Rat) (duration : Rat)
  | composite (background overlayClip : Clip)
  | vstack (top bottom : Clip)
  | hstack (row : List Clip)

/-- Failures of `process_and_composite_videos`: indexing `video_configs[0]` on
an empty list, a clip failing to open, and the dead guard at line 259. -/
inductive ComposeError where
  | indexError
  | openFailure (path : String)
  | noColumns
  deriving DecidableEq, Repr

/-- The single `write_videofile` call: the composed clip, the output path, the
codec and the fps argument. -/
structure RenderCall where
  clip : Clip
  outputPath : String
  codec : String
  fps : Rat

/-- Outcome of one call to `process_and_composite_videos` with its handle
bookkeeping. -/
structure ComposeRun where
  result : Except ComposeError RenderCall
  openedHandles : List String
  closedHandles : List String

/-- Opening a path with `VideoFileClip`: raises when the file is missing or
the decoder fails. -/
def mediaOpen (env : MediaEnv) (p : String) : Option VideoProps :=
  if env.fileExists p then env.openFile p else none

/-- The properties behind a path that is known to open. -/
def propsOf (env : MediaEnv) (p : String) : VideoProps :=
  (mediaOpen env p).getD default

def codecName : String := "libx264"

/-- One iteration of the compositor loop (lines 208-256): the entry's video
clip, a `ColorClip` of size `(original_width, text_area_height)` with the
hardcoded color `(255, 255, 255)` and the clip's duration, a centered
`TextClip` limited to `original_width * 0.9`, the caption-band composite, and
the vertical stack of video over caption band. -/
def buildColumn (originalWidth : Rat) (cfg : LayoutConfig) (e : VideoEntry)
    (p : VideoProps) : Clip :=
  Clip.vstack (Clip.video e.path p)
    (Clip.composite
      (Clip.color (originalWidth, cfg.text_area_height) (255, 255, 255) p.duration)
      (Clip.text e.description cfg.font_size cfg.font_color
        (originalWidth * (9 / 10)) p.duration))

/-- The compositor's per-entry loop.  The accumulator of columns and of opened
handles are kept most-recent-first and reversed on exit; the first component
of the returned fps is the fps of the most recently opened clip (the loop
variable `video_clip` read after the loop at line 278).  No handle opened in
this loop is ever closed, as in the source. -/
def composeLoop (env : MediaEnv) (w : Rat) (cfg : LayoutConfig) :
    Rat → List Clip → List String → List VideoEntry →
      Except ComposeError (List Clip × Rat) × List String
  | f, cols, opened, [] => (Except.ok (cols.reverse, f), opened.reverse)
  | _, cols, opened, e :: rest =>
    match mediaOpen env e.path with
    | none => (Except.error (ComposeError.openFailure e.path), opened.reverse)
    | some p =>
      composeLoop env w cfg p.fps (buildColumn w cfg e p :: cols) (e.path :: opened) rest

/-- `process_and_composite_videos` (lines 180-283): on an empty list the
subscript `video_configs[0]` at line 201 fails before the zero-columns guard
is ever reached; otherwise the first clip is opened as a dimension probe and
closed at once (the only close in the whole function), the loop builds one
column per entry, and the result is the single column (one entry) or the
horizontal `clips_array` row (several entries), rendered with codec
`libx264` at the fps of the last clip the loop opened. -/
def compose (env : MediaEnv) (videoConfigs : List VideoEntry) (outputPath : String)
    (cfg : LayoutConfig) : ComposeRun :=
  match videoConfigs with
  | [] => ⟨Except.error ComposeError.indexError, [], []⟩
  | e0 :: rest =>
    match mediaOpen env e0.path with
    | none => ⟨Except.error (ComposeError.openFailure e0.path), [], []⟩
    | some firstProps =>
      match composeLoop env firstProps.width cfg 0 [] [] (e0 :: rest) with
      | (Except.error err, opened) => ⟨Except.error err, e0.path :: opened, [e0.path]⟩
      | (Except.ok (cols, lastFps), opened) =>
        match cols with
        | [] => ⟨Except.error ComposeError.noColumns, e0.path :: opened, [e0.path]⟩
        | [c] =>
          ⟨Except.ok ⟨c, outputPath, codecName, lastFps⟩, e0.path :: opened, [e0.path]⟩
        | c1 :: c2 :: cs =>
          ⟨Except.ok ⟨Clip.hstack (c1 :: c2 :: cs), outputPath, codecName, lastFps⟩,
            e0.path :: opened, [e0.path]⟩

/-- The fps argument of the render call of a compositor run, when it reached
the render step. -/
def renderedFps (r : ComposeRun) : Option Rat :=
  match r.result with
  | Except.ok c => some c.fps
  | Except.error _ => none

/-- The codec argument of the render call of a compositor run. -/
def renderedCodec (r : ComposeRun) : Option String :=
  match r.result with
  | Except.ok c => some c.codec
  | Except.error _ => none

/-- Whether a compositor run reached the render step. -/
def renderOk (r : ComposeRun) : Bool :=
  match r.result with
  | Except.ok _ => true
  | Except.error _ => false

/-- The fps of the last clip opened by the compositor loop, folded exactly as
the loop overwrites its `video_clip` variable. -/
def lastFpsFrom (env : MediaEnv) (f : Rat) : List VideoEntry → Rat
  | [] => f
  | e :: rest => lastFpsFrom env (propsOf env e.path).fps rest

/-- A value decoded from the YAML configuration file (`yaml.safe_load`
output): strings, numbers, booleans, lists, string-keyed mappings, null. -/
inductive YVal where
  | str (s : String)
  | num (q : Rat)
  | bool (b : Bool)
  | list (items : List YVal)
  | dict (entries : List (String × YVal))
  | null

/-- Python dictionary lookup on a decoded mapping. -/
def ydictFind : List (String × YVal) → String → Option YVal
  | [], _ => none
  | (k, v) :: rest, key => if k = key then some v else ydictFind rest key

/-- `isinstance(x, (int, float))` on a decoded value (Python booleans are
integers with values 1 and 0). -/
def numValue : YVal → Option Rat
  | YVal.num q => some q
  | YVal.bool b => some (if b then 1 else 0)
  | _ => none

/-- The fatal validation errors of `load_config` after the YAML parse. -/
inductive ConfigError where
  | notDict
  | videosMissingOrNotList
  | badVideoCount (n : Nat)
  | entryNotDict (idx : Nat)
  | entryBadPath (idx : Nat)
  | outputMissing
  deriving DecidableEq, Repr

/-- The validated, fully defaulted configuration `load_config` returns.  YAML
never decodes to Python tuples, so the two color fields that survive the
`isinstance((str, tuple))` checks are strings. -/
structure Config where
  videos : List VideoEntry
  output_video : String
  text_area_height : Rat
  text_area_color : String
  font_size : Rat
  font_color : String
  deriving DecidableEq, Repr

def videosKey : String := "videos"
def outputKey : String := "output_video"
def pathKey : String := "path"
def descriptionKey : String := "description"
def heightKey : String := "text_area_height"
def colorKey : String := "text_area_color"
def fontSizeKey : String := "font_size"
def fontColorKey : String := "font_color"
def whiteColor : String := "white"
def blackColor : String := "black"

/-- Lines 78-81: `text_area_height` defaults to 100 when absent, non-numeric
or negative (the last two with a warning). -/
def heightValue (v : Option YVal) : Rat :=
  match v with
  | none => 100
  | some w =>
    match numValue w with
    | some q => if q < 0 then 100 else q
    | none => 100

/-- Lines 89-92: `font_size` defaults to 30 when absent, non-numeric or not
positive. -/
def fontSizeValue (v : Option YVal) : Rat :=
  match v with
  | none => 30
  | some w =>
    match numValue w with
    | some q => if q ≤ 0 then 30 else q
    | none => 30

/-- Lines 83-87 and 94-98: a color keeps its string value and otherwise falls
back to the given default with a warning. -/
def colorValue (v : Option YVal) (dflt : String) : String :=
  match v with
  | some (YVal.str s) => s
  | some _ => dflt
  | none => dflt

/-- Lines 47-66: each entry must be a mapping with a string `path`; a missing
or non-string `description` is replaced by the empty string with a warning. -/
def processEntries : Nat → List YVal → Except ConfigError (List VideoEntry)
  | _, [] => Except.ok []
  | i, v :: rest =>
    match v with
    | YVal.dict d =>
      match ydictFind d pathKey with
      | some (YVal.str p) =>
        let desc :=
          match ydictFind d descriptionKey with
          | some (YVal.str s) => s
          | _ => ""
        match processEntries (i + 1) rest with
        | Except.error e => Except.error e
        | Except.ok tail => Except.ok (⟨p, desc⟩ :: tail)
      | _ => Except.error (ConfigError.entryBadPath i)
    | _ => Except.error (ConfigError.entryNotDict i)

/-- `load_config` (lines 12-101) after the YAML parse: shape checks, the video
count check `1 <= len < 5`, per-entry validation, the `output_video` check,
then default substitution for the four styling parameters.  The filesystem
side effect (creating the output's parent directories) is outside the model. -/
def loadConfig (y : YVal) : Except ConfigError Config :=
  match y with
  | YVal.dict d =>
    match ydictFind d videosKey with
    | some (YVal.list vids) =>
      if 1 ≤ vids.length ∧ vids.length < 5 then
        match processEntries 0 vids with
        | Except.error e => Except.error e
        | Except.ok entries =>
          match ydictFind d outputKey with
          | some (YVal.str out) =>
            Except.ok
              ⟨entries, out,
                heightValue (ydictFind d heightKey),
                colorValue (ydictFind d colorKey) whiteColor,
                fontSizeValue (ydictFind d fontSizeKey),
                colorValue (ydictFind d fontColorKey) blackColor⟩
          | _ => Except.error ConfigError.outputMissing
      else Except.error (ConfigError.badVideoCount vids.length)
    | _ => Except.error ConfigError.videosMissingOrNotList
  | _ => Except.error ConfigError.notDict

/-! Concrete sample inputs used by witnesses, counterexamples and failing-input
evaluations. -/

def aPath : String := "a"
def bPath : String := "b"
def cPath : String := "c"
def dPath : String := "d"
def vPath : String := "v"
def outName : String := "out.mp4"

def entA : VideoEntry := ⟨aPath, "x"⟩
def entB : VideoEntry := ⟨bPath, "y"⟩

def propsA : VideoProps := ⟨640, 360, 30, 2⟩
def propsBsize : VideoProps := ⟨640, 480, 30, 2⟩
def propsBfps : VideoProps := ⟨640, 360, 30 + 1 / 2000, 2⟩
def propsSmall : VideoProps := ⟨100, 100, 10, 5⟩

def envA : MediaEnv := ⟨fun _ => true, fun p => if p = vPath then some propsA else none⟩
def envB : MediaEnv := ⟨fun _ => true, fun p => if p = vPath then some propsSmall else none⟩
def envOne : MediaEnv := ⟨fun _ => true, fun p => if p = aPath then some propsA else none⟩

def envSizeMismatch : MediaEnv :=
  ⟨fun _ => true,
    fun p => if p = aPath then some propsA else if p = bPath then some propsBsize else none⟩

def envTwinA : MediaEnv :=
  ⟨fun _ => true,
    fun p => if p = aPath then some propsA else if p = bPath then some propsA else none⟩

def envFps : MediaEnv :=
  ⟨fun _ => true,
    fun p => if p = aPath then some propsA else if p = bPath then some propsBfps else none⟩

def cfgDefault : LayoutConfig := ⟨100, ClipColor.named whiteColor, 30, ClipColor.named blackColor⟩
def cfgBlackBand : LayoutConfig := ⟨100, ClipColor.named blackColor, 30, ClipColor.named blackColor⟩

def entryY (p : String) : YVal :=
  YVal.dict [(pathKey, YVal.str p), (descriptionKey, YVal.str p)]

def rawFour : YVal :=
  YVal.dict
    [(videosKey, YVal.list [entryY aPath, entryY bPath, entryY cPath, entryY dPath]),
      (outputKey, YVal.str outName)]

def rawZeroDict : List (String × YVal) :=
  [(videosKey, YVal.list []), (outputKey, YVal.str outName)]

/-! Helper lemmas about the verifier. -/

/-- Python's `abs` agrees with the mathematical absolute value. -/
theorem ratAbs_eq_abs (q : Rat) : ratAbs q = |q| := by
  unfold ratAbs
  split_ifs with h
  · exact (abs_of_neg h).symm
  · exact (abs_of_nonneg (le_of_not_lt h)).symm

/-- The three checks of the verifier loop body pass exactly when no property
of the entry differs from the baseline beyond its tolerance. -/
theorem checkEntry_none_iff (base p : VideoProps) :
    checkEntry base p = none ↔ ¬ propsMismatch base p := by
  unfold checkEntry propsMismatch
  simp only [ratAbs_eq_abs]
  split_ifs with h1 h2 h3
  · exact iff_of_false (by simp) (fun hn => hn (Or.inl h1))
  · exact iff_of_false (by simp) (fun hn => hn (Or.inr (Or.inl h2.2)))
  · exact iff_of_false (by simp) (fun hn => hn (Or.inr (Or.inr h3)))
  · refine iff_of_true rfl ?_
    rintro (ha | hb | hc)
    · exact h1 ha
    · refine h2 ⟨?_, hb⟩
      intro he
      rw [he, sub_self, abs_zero] at hb
      exact absurd hb (by norm_num)
    · exact h3 hc

/-- A fired check implies a genuine property mismatch. -/
theorem propsMismatch_of_some (base p : VideoProps) (k : MismatchKind)
    (h : checkEntry base p = some k) : propsMismatch base p := by
  by_contra hm
  rw [(checkEntry_none_iff base p).mpr hm] at h
  exact Option.noConfusion h

/-- The verifier loop succeeds exactly when no remaining entry mismatches the
baseline, independently of the bookkeeping accumulators. -/
theorem verifyAux_ok_iff (env : MediaEnv) (base : VideoProps) (bp : String)
    (rest : List VideoEntry) :
    ∀ tracked opened : List String,
      (∀ e ∈ rest, env.fileExists e.path = true ∧ (env.openFile e.path).isSome = true) →
      ((verifyAux env base bp tracked opened rest).result = Except.ok () ↔
        ∀ e ∈ rest, ∀ p, env.openFile e.path = some p → ¬ propsMismatch base p) := by
  induction rest with
  | nil =>
    intro t o _
    simp [verifyAux]
  | cons e rest ih =>
    intro t o hex
    obtain ⟨hfe, hso⟩ := hex e (List.mem_cons_self e rest)
    obtain ⟨p, hp⟩ := Option.isSome_iff_exists.mp hso
    have hrest := fun x hx => hex x (List.mem_cons_of_mem e hx)
    rcases hc : checkEntry base p with _ | k
    · have hstep : verifyAux env base bp t o (e :: rest) =
          verifyAux env base bp (e.path :: t) (e.path :: o) rest := by
        simp [verifyAux, hfe, hp, hc]
      rw [hstep, ih _ _ hrest, List.forall_mem_cons]
      have hPe : ∀ q, env.openFile e.path = some q → ¬ propsMismatch base q := by
        intro q hq
        rw [hp] at hq
        injection hq with hpq
        subst hpq
        exact (checkEntry_none_iff base p).mp hc
      exact (and_iff_right hPe).symm
    · have hstep : (verifyAux env base bp t o (e :: rest)).result =
          Except.error (VerifyError.propertyMismatch k e.path bp) := by
        simp [verifyAux, hfe, hp, hc]
      rw [hstep, List.forall_mem_cons]
      refine iff_of_false (by simp) ?_
      rintro ⟨hPe, -⟩
      exact hPe p hp (propsMismatch_of_some base p k hc)

/-- The verifier loop ends in a property-mismatch error exactly when some
remaining entry mismatches the baseline. -/
theorem verifyAux_mismatch_iff (env : MediaEnv) (base : VideoProps) (bp : String)
    (rest : List VideoEntry) :
    ∀ tracked opened : List String,
      (∀ e ∈ rest, env.fileExists e.path = true ∧ (env.openFile e.path).isSome = true) →
      ((∃ k q b, (verifyAux env base bp tracked opened rest).result =
          Except.error (VerifyError.propertyMismatch k q b)) ↔
        ∃ e ∈ rest, ∃ p, env.openFile e.path = some p ∧ propsMismatch base p) := by
  induction rest with
  | nil =>
    intro t o _
    simp [verifyAux]
  | cons e rest ih =>
    intro t o hex
    obtain ⟨hfe, hso⟩ := hex e (List.mem_cons_self e rest)
    obtain ⟨p, hp⟩ := Option.isSome_iff_exists.mp hso
    have hrest := fun x hx => hex x (List.mem_cons_of_mem e hx)
    rcases hc : checkEntry base p with _ | k
    · have hstep : verifyAux env base bp t o (e :: rest) =
          verifyAux env base bp (e.path :: t) (e.path :: o) rest := by
        simp [verifyAux, hfe, hp, hc]
      rw [hstep, ih _ _ hrest, List.exists_mem_cons_iff]
      have hQe : ¬ ∃ q, env.openFile e.path = some q ∧ propsMismatch base q := by
        rintro ⟨q, hq, hm⟩
        rw [hp] at hq
        injection hq with hpq
        subst hpq
        exact (checkEntry_none_iff base p).mp hc hm
      exact (or_iff_right hQe).symm
    · have hstep : (verifyAux env base bp t o (e :: rest)).result =
          Except.error (VerifyError.propertyMismatch k e.path bp) := by
        simp [verifyAux, hfe, hp, hc]
      rw [hstep]
      exact iff_of_true ⟨k, e.path, bp, rfl⟩
        ⟨e, List.mem_cons_self e rest, p, hp, propsMismatch_of_some base p k hc⟩

/-- On a nonempty list whose first entry opens, `verify_videos` reduces to its
comparison loop. -/
theorem verifyVideos_cons (env : MediaEnv) (e0 : VideoEntry) (rest : List VideoEntry)
    (base : VideoProps) (hfe0 : env.fileExists e0.path = true)
    (hbase : env.openFile e0.path = some base) :
    verifyVideos env (e0 :: rest) = verifyAux env base e0.path [e0.path] [e0.path] rest := by
  simp [verifyVideos, hfe0, hbase]

/-- Claim C1: when every file exists and opens, `verify_videos` raises a
property-mismatch error exactly when some non-baseline entry's frame size
differs from the first entry's (exact equality), or its frame rate differs by
more than 0.001, or its duration differs by more than 0.1 seconds; and it
succeeds exactly when every difference is within those tolerances. -/
theorem verify_property_mismatch_iff (env : MediaEnv) (e0 : VideoEntry)
    (rest : List VideoEntry) (base : VideoProps)
    (hfe0 : env.fileExists e0.path = true)
    (hbase : env.openFile e0.path = some base)
    (hex : ∀ e ∈ rest, env.fileExists e.path = true ∧ (env.openFile e.path).isSome = true) :
    ((∃ k q b, (verifyVideos env (e0 :: rest)).result =
        Except.error (VerifyError.propertyMismatch k q b)) ↔
      ∃ e ∈ rest, ∃ p, env.openFile e.path = some p ∧ propsMismatch base p) ∧
    ((verifyVideos env (e0 :: rest)).result = Except.ok () ↔
      ∀ e ∈ rest, ∀ p, env.openFile e.path = some p → ¬ propsMismatch base p) := by
  rw [verifyVideos_cons env e0 rest base hfe0 hbase]
  exact ⟨verifyAux_mismatch_iff env base e0.path rest _ _ hex,
    verifyAux_ok_iff env base e0.path rest _ _ hex⟩

/-- Witness for C1 at a concrete input: two clips whose frame heights differ
by 120 pixels; the verifier raises the size mismatch. -/
theorem verify_property_mismatch_iff_witness :
    (envSizeMismatch.fileExists entA.path = true) ∧
    (envSizeMismatch.openFile entA.path = some propsA) ∧
    (∀ e ∈ [entB], envSizeMismatch.fileExists e.path = true ∧
      (envSizeMismatch.openFile e.path).isSome = true) ∧
    (((∃ k q b, (verifyVideos envSizeMismatch (entA :: [entB])).result =
        Except.error (VerifyError.propertyMismatch k q b)) ↔
      ∃ e ∈ [entB], ∃ p, envSizeMismatch.openFile e.path = some p ∧ propsMismatch propsA p) ∧
    ((verifyVideos envSizeMismatch (entA :: [entB])).result = Except.ok () ↔
      ∀ e ∈ [entB], ∀ p, envSizeMismatch.openFile e.path = some p → ¬ propsMismatch propsA p)) :=
  ⟨rfl, rfl, by decide,
    verify_property_mismatch_iff envSizeMismatch entA [entB] propsA rfl rfl (by decide)⟩

/-- Claim C10: on a single-entry list whose file exists and opens, the
comparison loop over `video_configs[1:]` is empty, so `verify_videos`
succeeds whatever the clip's size, fps or duration are. -/
theorem verify_single_entry_never_mismatch (env : MediaEnv) (e : VideoEntry) (p : VideoProps)
    (hfe : env.fileExists e.path = true) (hp : env.openFile e.path = some p) :
    (verifyVideos env [e]).result = Except.ok () := by
  simp [verifyVideos, verifyAux, hfe, hp]

/-- Witness for C10: a single 100 by 100 clip at 10 fps lasting 5 seconds
(properties unlike any other sample) verifies successfully. -/
theorem verify_single_entry_never_mismatch_witness :
    envB.fileExists vPath = true ∧ envB.openFile vPath = some propsSmall ∧
    (verifyVideos envB [⟨vPath, vPath⟩]).result = Except.ok () :=
  ⟨rfl, rfl, verify_single_entry_never_mismatch envB ⟨vPath, vPath⟩ propsSmall rfl rfl⟩

/-- Claim C4 counterexample: `verify_videos` returns no baseline.  Two runs
over single-clip lists with different properties (640 by 360 at 30 fps for
2 s versus 100 by 100 at 10 fps for 5 s) produce identical outputs — the
Python function has no return statement and yields `None` — so its output
cannot equal the first entry's properties in both runs. -/
theorem verify_result_carries_no_baseline :
    verifyVideos envA [⟨vPath, vPath⟩] = verifyVideos envB [⟨vPath, vPath⟩] ∧
    envA.openFile vPath ≠ envB.openFile vPath :=
  ⟨rfl, by decide⟩

/-- Claim C4 amended: on a list whose files exist, open, and have matching
properties, `verify_videos` raises nothing and succeeds; the baseline
properties are read from the first entry's handle and used for the
comparison, but the function returns no value. -/
theorem verify_matching_props_succeeds (env : MediaEnv) (e0 : VideoEntry)
    (rest : List VideoEntry) (base : VideoProps)
    (hfe0 : env.fileExists e0.path = true)
    (hbase : env.openFile e0.path = some base)
    (hex : ∀ e ∈ rest, env.fileExists e.path = true ∧ (env.openFile e.path).isSome = true)
    (hmatch : ∀ e ∈ rest, ¬ propsMismatch base ((env.openFile e.path).getD default)) :
    (verifyVideos env (e0 :: rest)).result = Except.ok () := by
  rw [verifyVideos_cons env e0 rest base hfe0 hbase]
  refine (verifyAux_ok_iff env base e0.path rest _ _ hex).mpr ?_
  intro e he p hp
  have hm := hmatch e he
  rw [hp] at hm
  simpa using hm

/-- Witness for the amended C4: two entries behind identical 640 by 360,
30 fps, 2 s clips verify successfully. -/
theorem verify_matching_props_succeeds_witness :
    (envTwinA.fileExists entA.path = true) ∧
    (envTwinA.openFile entA.path = some propsA) ∧
    (∀ e ∈ [entB], envTwinA.fileExists e.path = true ∧
      (envTwinA.openFile e.path).isSome = true) ∧
    (∀ e ∈ [entB], ¬ propsMismatch propsA ((envTwinA.openFile e.path).getD default)) ∧
    (verifyVideos envTwinA (entA :: [entB])).result = Except.ok () :=
  ⟨rfl, rfl, by decide, by
      intro e he
      simp only [List.mem_singleton] at he
      subst he
      have hred : (envTwinA.openFile entB.path).getD default = propsA := rfl
      rw [hred]
      unfold propsMismatch
      norm_num,
    verify_matching_props_succeeds envTwinA entA [entB] propsA rfl rfl (by decide)
      (by
        intro e he
        simp only [List.mem_singleton] at he
        subst he
        have hred : (envTwinA.openFile entB.path).getD default = propsA := rfl
        rw [hred]
        unfold propsMismatch
        norm_num)⟩

/-- Claim C2 (code bug): in `verify_videos` the clip under examination is
appended to `clips` only after all three checks pass, so when a check raises,
the `except` and `finally` cleanup — which iterates over `clips` — never
closes the clip that was just opened.  At this input the handle for `b` is
opened, the size check raises, and only `a` is closed: one media handle leaks
across the raise boundary. -/
theorem verify_leaks_open_handle_on_mismatch :
    (verifyVideos envSizeMismatch [entA, entB]).result =
      Except.error (VerifyError.propertyMismatch MismatchKind.size bPath aPath) ∧
    (verifyVideos envSizeMismatch [entA, entB]).openedHandles = [aPath, bPath] ∧
    (verifyVideos envSizeMismatch [entA, entB]).closedHandles = [aPath] ∧
    bPath ∉ (verifyVideos envSizeMismatch [entA, entB]).closedHandles :=
  ⟨rfl, rfl, rfl, by decide⟩

/-! Helper lemmas about the compositor. -/

/-- A successful compositor loop produced one column per remaining entry on
top of the accumulator. -/
theorem composeLoop_ok_cols_length (env : MediaEnv) (w : Rat) (cfg : LayoutConfig) :
    ∀ (l : List VideoEntry) (f : Rat) (cols : List Clip) (op : List String)
      (cols2 : List Clip) (f2 : Rat) (op2 : List String),
      composeLoop env w cfg f cols op l = (Except.ok (cols2, f2), op2) →
      cols2.length = cols.length + l.length := by
  intro l
  induction l with
  | nil =>
    intro f cols op cols2 f2 op2 h
    simp only [composeLoop, Prod.mk.injEq, Except.ok.injEq] at h
    rw [← h.1.1]
    simp
  | cons e rest ih =>
    intro f cols op cols2 f2 op2 h
    rcases hm : mediaOpen env e.path with _ | p
    · rw [composeLoop, hm] at h
      simp at h
    · rw [composeLoop, hm] at h
      have := ih p.fps (buildColumn w cfg e p :: cols) (e.path :: op) cols2 f2 op2 h
      rw [this]
      simp only [List.length_cons]
      omega

/-- The only error the compositor loop produces itself is an open failure. -/
theorem composeLoop_error_is_openFailure (env : MediaEnv) (w : Rat) (cfg : LayoutConfig) :
    ∀ (l : List VideoEntry) (f : Rat) (cols : List Clip) (op : List String)
      (err : ComposeError) (op2 : List String),
      composeLoop env w cfg f cols op l = (Except.error err, op2) →
      ∃ pth, err = ComposeError.openFailure pth := by
  intro l
  induction l with
  | nil =>
    intro f cols op err op2 h
    simp [composeLoop] at h
  | cons e rest ih =>
    intro f cols op err op2 h
    rcases hm : mediaOpen env e.path with _ | p
    · rw [composeLoop, hm] at h
      simp only [Prod.mk.injEq, Except.error.injEq] at h
      exact ⟨e.path, h.1.symm⟩
    · rw [composeLoop, hm] at h
      exact ih p.fps (buildColumn w cfg e p :: cols) (e.path :: op) err op2 h

/-- The dead guard: no call of the compositor can produce the zero-columns
error, because an empty list already fails on the subscript before the guard
and a nonempty list always yields at least one column. -/
theorem compose_result_ne_noColumns (env : MediaEnv) (cfgs : List VideoEntry)
    (out : String) (cfg : LayoutConfig) :
    (compose env cfgs out cfg).result ≠ Except.error ComposeError.noColumns := by
  cases cfgs with
  | nil => simp [compose]
  | cons e0 rest =>
    rcases hm : mediaOpen env e0.path with _ | p
    · simp [compose, hm]
    · rcases hl : composeLoop env p.width cfg 0 [] [] (e0 :: rest) with ⟨res, opened⟩
      rcases res with err | ⟨cols, lastFps⟩
      · obtain ⟨pth, rfl⟩ :=
          composeLoop_error_is_openFailure env p.width cfg (e0 :: rest) 0 [] [] err opened hl
        simp [compose, hm, hl]
      · have hlen := composeLoop_ok_cols_length env p.width cfg (e0 :: rest) 0 [] [] _ _ _ hl
        rcases cols with _ | ⟨c1, cols'⟩
        · simp at hlen
        · rcases cols' with _ | ⟨c2, cols''⟩ <;> simp [compose, hm, hl]

/-- When every remaining entry opens, the compositor loop succeeds, appending
one column per entry in declaration order, recording each opened path, and
ending with the fps of the last clip it opened. -/
theorem composeLoop_all_open (env : MediaEnv) (w : Rat) (cfg : LayoutConfig) :
    ∀ (l : List VideoEntry) (f : Rat) (cols : List Clip) (op : List String),
      (∀ e ∈ l, (mediaOpen env e.path).isSome = true) →
      composeLoop env w cfg f cols op l =
        (Except.ok
          (cols.reverse ++ l.map (fun e => buildColumn w cfg e (propsOf env e.path)),
            lastFpsFrom env f l),
          op.reverse ++ l.map (fun e => e.path)) := by
  intro l
  induction l with
  | nil =>
    intro f cols op _
    simp [composeLoop, lastFpsFrom]
  | cons e rest ih =>
    intro f cols op hopen
    obtain ⟨p, hp⟩ := Option.isSome_iff_exists.mp (hopen e (List.mem_cons_self e rest))
    have hrest := fun x hx => hopen x (List.mem_cons_of_mem e hx)
    have hprops : propsOf env e.path = p := by simp [propsOf, hp]
    rw [composeLoop, hp]
    show composeLoop env w cfg p.fps (buildColumn w cfg e p :: cols) (e.path :: op) rest =
      (Except.ok
        (cols.reverse ++ (e :: rest).map (fun x => buildColumn w cfg x (propsOf env x.path)),
          lastFpsFrom env f (e :: rest)),
        op.reverse ++ (e :: rest).map (fun x => x.path))
    rw [ih p.fps (buildColumn w cfg e p :: cols) (e.path :: op) hrest]
    simp [lastFpsFrom, hprops, List.reverse_cons, List.append_assoc]

/-- The fps the loop ends with is the fps of the clip behind the last entry. -/
theorem lastFpsFrom_cons (env : MediaEnv) :
    ∀ (l : List VideoEntry) (e0 : VideoEntry) (f : Rat),
      lastFpsFrom env f (e0 :: l) = (propsOf env (l.getLastD e0).path).fps := by
  intro l
  induction l with
  | nil =>
    intro e0 f
    simp [lastFpsFrom]
  | cons e1 l ih =>
    intro e0 f
    rw [lastFpsFrom, ih e1 _, List.getLastD_cons]

/-- Full characterization of a compositor run on a nonempty list whose files
all open: the dimension probe is the only close; the loop re-opens every
entry; the result is the single column or the horizontal row; the render call
uses the fixed codec and the last opened clip's fps. -/
theorem compose_ok_of_open (env : MediaEnv) (e0 : VideoEntry) (rest : List VideoEntry)
    (out : String) (cfg : LayoutConfig)
    (hopen : ∀ e ∈ e0 :: rest, (mediaOpen env e.path).isSome = true) :
    compose env (e0 :: rest) out cfg =
      ⟨Except.ok
        ⟨(match rest with
          | [] => buildColumn (propsOf env e0.path).width cfg e0 (propsOf env e0.path)
          | _ :: _ =>
            Clip.hstack
              ((e0 :: rest).map
                (fun e => buildColumn (propsOf env e0.path).width cfg e (propsOf env e.path)))),
          out, codecName, (propsOf env (rest.getLastD e0).path).fps⟩,
        e0.path :: (e0 :: rest).map (fun e => e.path), [e0.path]⟩ := by
  obtain ⟨p0, hp0⟩ := Option.isSome_iff_exists.mp (hopen e0 (List.mem_cons_self e0 rest))
  have hprops0 : propsOf env e0.path = p0 := by simp [propsOf, hp0]
  have hloop := composeLoop_all_open env p0.width cfg (e0 :: rest) 0 [] [] hopen
  simp only [List.reverse_nil, List.nil_append] at hloop
  rw [← lastFpsFrom_cons env rest e0 0]
  rw [hprops0]
  cases rest with
  | nil =>
    simp only [compose, hp0, hloop]
    simp [hprops0]
  | cons e1 rest' =>
    simp only [compose, hp0, hloop]
    simp [hprops0]

/-- Every path exists in the fps sample environment. -/
theorem envFps_exists (p : String) : envFps.fileExists p = true := rfl

/-- Opening the second sample path yields the 30.0005 fps clip. -/
theorem envFps_open_b : envFps.openFile entB.path = some propsBfps := rfl

/-- A 30 fps clip and a 30.0005 fps clip of equal size and duration pass all
three checks: the fps difference 0.0005 is within the 0.001 tolerance. -/
theorem checkEntry_A_Bfps : checkEntry propsA propsBfps = none := by
  unfold checkEntry ratAbs propsA propsBfps
  norm_num

/-- Opening the single sample path yields the baseline clip. -/
theorem propsOf_envOne_a : propsOf envOne aPath = propsA := rfl

/-- The properties behind the second fps sample path. -/
theorem propsOf_envFps_b : propsOf envFps entB.path = propsBfps := rfl

/-- Claim C3 (code bug): the compositor does not pair acquisitions with
releases.  It closes only the first-clip dimension probe (line 203); every
clip opened in the per-entry loop is appended to `loaded_clips` — the
comments say "to close later" — but no close of `loaded_clips` exists on any
path.  On this single-entry run the compositor returns normally having opened
the entry's handle twice and closed it once: a handle is left open on the
normal-return path. -/
theorem compose_leaves_handles_open :
    renderOk (compose envOne [⟨aPath, aPath⟩] outName cfgDefault) = true ∧
    (compose envOne [⟨aPath, aPath⟩] outName cfgDefault).openedHandles = [aPath, aPath] ∧
    (compose envOne [⟨aPath, aPath⟩] outName cfgDefault).closedHandles = [aPath] :=
  ⟨rfl, rfl, rfl⟩

/-- Claim C5 (code bug): the caption band background is built with the right
size `(original_width, text_area_height)` and the clip's duration, but its
color is the hardcoded literal `(255, 255, 255)` from line 222: with
`text_area_color` configured to `black` the band is still white.  The local
`text_area_color` read at line 195 is never used. -/
theorem caption_band_color_hardcoded_white :
    (compose envOne [⟨aPath, aPath⟩] outName cfgBlackBand).result =
      Except.ok
        ⟨Clip.vstack (Clip.video aPath propsA)
          (Clip.composite
            (Clip.color (640, 100) (255, 255, 255) 2)
            (Clip.text aPath 30 (ClipColor.named blackColor) 576 2)),
          outName, codecName, 30⟩ ∧
    cfgBlackBand.text_area_color = ClipColor.named blackColor ∧
    ClipColor.named blackColor ≠ ClipColor.rgb 255 255 255 := by
  refine ⟨?_, rfl, by decide⟩
  rw [compose_ok_of_open envOne ⟨aPath, aPath⟩ [] outName cfgBlackBand (by decide)]
  norm_num [propsOf_envOne_a, buildColumn, cfgBlackBand, propsA]

/-- Claim C7 counterexample: two clips at 30 fps and 30.0005 fps verify
successfully (the difference is within the 0.001 tolerance), yet the render
call's fps is the second clip's 30.0005, not the verified baseline 30: the
compositor takes its fps from the last clip it opens itself (line 278) and no
frame rate is passed in from verification. -/
theorem render_fps_not_baseline_fps :
    (verifyVideos envFps [entA, entB]).result = Except.ok () ∧
    (propsOf envFps aPath).fps = 30 ∧
    renderedFps (compose envFps [entA, entB] outName cfgDefault) = some (60001 / 2000) ∧
    ((60001 / 2000 : Rat) ≠ 30) := by
  refine ⟨?_, rfl, ?_, by norm_num⟩
  · rw [verifyVideos_cons envFps entA [entB] propsA rfl rfl]
    simp [verifyAux, envFps_exists, envFps_open_b, checkEntry_A_Bfps]
  · rw [compose_ok_of_open envFps entA [entB] outName cfgDefault (by decide)]
    simp only [renderedFps]
    rw [show ([entB].getLastD entA) = entB from rfl, propsOf_envFps_b]
    norm_num [propsBfps]

/-- Claim C7 amended: the compositor renders with the fixed codec `libx264`,
but at the fps of the clip it opened for the last entry — the loop variable
read after the loop — re-derived by the compositor itself; no frame rate
parameter is passed in from verification. -/
theorem compose_fps_from_last_opened_clip (env : MediaEnv) (e0 : VideoEntry)
    (rest : List VideoEntry) (out : String) (cfg : LayoutConfig)
    (hopen : ∀ e ∈ e0 :: rest, (mediaOpen env e.path).isSome = true) :
    renderedCodec (compose env (e0 :: rest) out cfg) = some codecName ∧
    renderedFps (compose env (e0 :: rest) out cfg) =
      some (propsOf env (rest.getLastD e0).path).fps := by
  rw [compose_ok_of_open env e0 rest out cfg hopen]
  exact ⟨rfl, rfl⟩

/-- Witness for the amended C7 on the two-entry 30 versus 30.0005 input. -/
theorem compose_fps_from_last_opened_clip_witness :
    (∀ e ∈ entA :: [entB], (mediaOpen envFps e.path).isSome = true) ∧
    (renderedCodec (compose envFps (entA :: [entB]) outName cfgDefault) = some codecName ∧
      renderedFps (compose envFps (entA :: [entB]) outName cfgDefault) =
        some (propsOf envFps ([entB].getLastD entA).path).fps) :=
  ⟨by decide,
    compose_fps_from_last_opened_clip envFps entA [entB] outName cfgDefault (by decide)⟩

/-- Claim C8 (code bug): called with an empty entry list, the compositor
fails on the subscript `video_configs[0]` at line 201 (an IndexError, not a
`CompositionError` about missing columns); its own zero-columns guard at
line 259 sits after that subscript and after the loop and can never fire, on
any input. -/
theorem compose_empty_entries_index_error (env : MediaEnv) (out : String)
    (cfg : LayoutConfig) :
    compose env [] out cfg = ⟨Except.error ComposeError.indexError, [], []⟩ ∧
    ComposeError.indexError ≠ ComposeError.noColumns ∧
    ∀ (cfgs : List VideoEntry),
      (compose env cfgs out cfg).result ≠ Except.error ComposeError.noColumns :=
  ⟨rfl, by decide, fun cfgs => compose_result_ne_noColumns env cfgs out cfg⟩

/-- Claim C9: with exactly one entry the final composite is that entry's
column — a vertical stack, never a horizontal arrangement — and with N > 1
entries it is the single horizontal row of the N columns in declaration
order. -/
theorem compose_layout_single_and_row (env : MediaEnv) (e0 : VideoEntry)
    (rest : List VideoEntry) (out : String) (cfg : LayoutConfig)
    (hopen : ∀ e ∈ e0 :: rest, (mediaOpen env e.path).isSome = true) :
    ∃ r, (compose env (e0 :: rest) out cfg).result = Except.ok r ∧
      ((rest = [] →
          r.clip = buildColumn (propsOf env e0.path).width cfg e0 (propsOf env e0.path) ∧
          ∀ cs, r.clip ≠ Clip.hstack cs) ∧
        (rest ≠ [] →
          r.clip =
            Clip.hstack
              ((e0 :: rest).map
                (fun e => buildColumn (propsOf env e0.path).width cfg e
                  (propsOf env e.path))))) := by
  rw [compose_ok_of_open env e0 rest out cfg hopen]
  refine ⟨_, rfl, ?_, ?_⟩
  · intro h
    subst h
    refine ⟨rfl, ?_⟩
    intro cs hcs
    simp [buildColumn] at hcs
  · intro h
    cases rest with
    | nil => exact absurd rfl h
    | cons e1 rest' => rfl

/-- Witness for C9 on a concrete two-entry input: the output is the
horizontal row of the two columns in order. -/
theorem compose_layout_single_and_row_witness :
    (∀ e ∈ entA :: [entB], (mediaOpen envTwinA e.path).isSome = true) ∧
    (∃ r, (compose envTwinA (entA :: [entB]) outName cfgDefault).result = Except.ok r ∧
      (([entB] = [] →
          r.clip = buildColumn (propsOf envTwinA entA.path).width cfgDefault entA
            (propsOf envTwinA entA.path) ∧
          ∀ cs, r.clip ≠ Clip.hstack cs) ∧
        ([entB] ≠ [] →
          r.clip =
            Clip.hstack
              ((entA :: [entB]).map
                (fun e => buildColumn (propsOf envTwinA entA.path).width cfgDefault e
                  (propsOf envTwinA e.path)))))) :=
  ⟨by decide,
    compose_layout_single_and_row envTwinA entA [entB] outName cfgDefault (by decide)⟩

/-! Helper lemmas about the configuration validator. -/

/-- Per-entry validation produces only per-entry errors, never the video-count
error. -/
theorem processEntries_ne_badCount :
    ∀ (i : Nat) (l : List YVal) (n : Nat),
      processEntries i l ≠ Except.error (ConfigError.badVideoCount n) := by
  intro i l
  induction l generalizing i with
  | nil =>
    intro n h
    simp [processEntries] at h
  | cons v rest ih =>
    intro n h
    rcases v with s | q | b | items | dEntries | _
    · simp [processEntries] at h
    · simp [processEntries] at h
    · simp [processEntries] at h
    · simp [processEntries] at h
    · rcases hf : ydictFind dEntries pathKey with _ | w
      · simp [processEntries, hf] at h
      · rcases w with s | q | b | items | d2 | _
        · rcases hpe : processEntries (i + 1) rest with e2 | tail
          · simp only [processEntries, hf, hpe] at h
            rw [h] at hpe
            exact ih (i + 1) n hpe
          · simp [processEntries, hf, hpe] at h
        · simp [processEntries, hf] at h
        · simp [processEntries, hf] at h
        · simp [processEntries, hf] at h
        · simp [processEntries, hf] at h
        · simp [processEntries, hf] at h
    · simp [processEntries] at h

/-- Claim C6 counterexample: a configuration with four video entries — a
count outside `[1, 4)` — is accepted by `load_config`: the source checks
`1 <= len(config['videos']) < 5` (line 43), so four entries pass validation.
-/
theorem load_config_accepts_four_videos :
    loadConfig rawFour =
      Except.ok
        ⟨[⟨aPath, aPath⟩, ⟨bPath, bPath⟩, ⟨cPath, cPath⟩, ⟨dPath, dPath⟩], outName,
          100, whiteColor, 30, blackColor⟩ ∧
    ¬ (4 < 4) :=
  ⟨rfl, by decide⟩

/-- Claim C6 amended: `load_config` fails with the video-count error exactly
when the number of entries is outside `[1, 5)`: it accepts 1, 2, 3 or 4
entries and rejects every other count. -/
theorem load_config_video_count_iff (d : List (String × YVal)) (vids : List YVal)
    (hv : ydictFind d videosKey = some (YVal.list vids)) :
    (∃ n, loadConfig (YVal.dict d) = Except.error (ConfigError.badVideoCount n)) ↔
      ¬ (1 ≤ vids.length ∧ vids.length < 5) := by
  by_cases hc : 1 ≤ vids.length ∧ vids.length < 5
  · have hstep : loadConfig (YVal.dict d) =
        (match processEntries 0 vids with
          | Except.error e => Except.error e
          | Except.ok entries =>
            match ydictFind d outputKey with
            | some (YVal.str out) =>
              Except.ok
                ⟨entries, out,
                  heightValue (ydictFind d heightKey),
                  colorValue (ydictFind d colorKey) whiteColor,
                  fontSizeValue (ydictFind d fontSizeKey),
                  colorValue (ydictFind d fontColorKey) blackColor⟩
            | _ => Except.error ConfigError.outputMissing) := by
      simp [loadConfig, hv, hc]
    refine iff_of_false ?_ (by simpa using hc)
    rintro ⟨n, hn⟩
    rw [hstep] at hn
    rcases hpe : processEntries 0 vids with e | entries
    · rw [hpe] at hn
      simp only [Except.error.injEq] at hn
      rw [hn] at hpe
      exact processEntries_ne_badCount 0 vids n hpe
    · rw [hpe] at hn
      rcases ho : ydictFind d outputKey with _ | w
      · rw [ho] at hn
        simp at hn
      · rcases w with s | q | b | items | d2 | _ <;> rw [ho] at hn <;> simp at hn
  · have hstep : loadConfig (YVal.dict d) =
        Except.error (ConfigError.badVideoCount vids.length) := by
      simp [loadConfig, hv, hc]
    exact iff_of_true ⟨vids.length, hstep⟩ hc

/-- Witness for the amended C6 at a concrete rejected input: an empty
`videos` list (count 0, outside `[1, 5)`). -/
theorem load_config_video_count_iff_witness :
    (ydictFind rawZeroDict videosKey = some (YVal.list [])) ∧
    ((∃ n, loadConfig (YVal.dict rawZeroDict) = Except.error (ConfigError.badVideoCount n)) ↔
      ¬ (1 ≤ ([] : List YVal).length ∧ ([] : List YVal).length < 5)) :=
  ⟨rfl, load_config_video_count_iff rawZeroDict [] rfl⟩

end ConcatVideos
